import Mathlib

/-!
A verification development for the FRED time-series retrieval and
normalization layer (`app/services/fredApi.ts` and the page controller in
`app/page.tsx`).

The TypeScript source is shallowly embedded as executable Lean functions.
Host effects are made explicit:
  * the environment credential `process.env.NEXT_PUBLIC_FRED_API_KEY`
    becomes a parameter `apiKey : Option String` (the JS falsiness test
    `!API_KEY` holds for `undefined` and for the empty string);
  * the network becomes a parameter `net : SeriesRequest → FetchOutcome`
    that maps the request issued by `fetch` to its outcome;
  * the current time `Date.now()` becomes a parameter `now : Int`
    (milliseconds since the Unix epoch, UTC);
  * a rejected promise is modelled by `Except FredError`;
  * each function returns, besides its result, the list of network
    requests it issued, so that "no network call was made" is expressible;
  * JS numbers are modelled as `JsNum` (an exact rational or NaN);
    the host timezone used by `toLocaleDateString` is taken to be UTC.
-/

attribute [local semireducible] Rat.add Rat.mul Rat.inv Rat.sub

deriving instance DecidableEq for Except

namespace FredApi

/-- Structure `FredObservation` from `fredApi.ts`: one raw sample of the
upstream series, with the value still a string (possibly the sentinel
"."). -/
structure FredObservation where
  date : String
  value : String
deriving Repr, DecidableEq

/-- Structure `FredSeriesResponse` from `fredApi.ts`: the parsed JSON
body. -/
structure FredSeriesResponse where
  observations : List FredObservation
deriving Repr, DecidableEq

/-- The query parameters that `fetchFredSeries` attaches to the request
URL (`series_id`, `observation_start`, `observation_end`; the credential
and the fixed `file_type=json` flag are omitted as they carry no data). -/
structure SeriesRequest where
  seriesId : String
  startDate : Option String
  endDate : Option String
deriving Repr, DecidableEq

/-- The body handed back by the host `fetch`: either malformed JSON
(`response.json()` rejects) or a well-formed series response. -/
inductive ResponseBody where
  | malformed
  | valid (r : FredSeriesResponse)
deriving Repr, DecidableEq

/-- One possible outcome of the host `fetch` call: the promise rejects
(network failure), or a response arrives with its `ok` flag, status code
and body. -/
inductive FetchOutcome where
  | networkFailure
  | response (ok : Bool) (status : Nat) (body : ResponseBody)
deriving Repr, DecidableEq

/-- The errors that can be thrown inside the `try` block of
`fetchFredSeries`. -/
inductive FredError where
  | networkError
  | requestError (status : Nat)
  | parseError
deriving Repr, DecidableEq

/-- A JS number: NaN or an exact rational (overflow to infinity plays no
role for the inputs of this layer). -/
inductive JsNum where
  | nan
  | num (q : ℚ)
deriving Repr, DecidableEq

/-- The chart-ready point produced by the four normalizing pipelines. -/
structure NormalizedPoint where
  date : String
  value : JsNum
deriving Repr, DecidableEq

/-! ### Host-library functions used by the source

`parseFloat`, `new Date(s).toLocaleDateString('en-US', {month:'short',
year:'numeric'})` and `new Date(t).toISOString().split('T')[0]` are
embedded as executable Lean functions with JS semantics (timezone UTC). -/

/-- The numeric value of a list of decimal digit characters, read left to
right. -/
def digitsToNat (ds : List Char) : Nat :=
  ds.foldl (fun acc c => 10 * acc + (c.toNat - 48)) 0

/-- Split a character list into its maximal leading run of decimal digits
and the rest. -/
def takeDigits (cs : List Char) : List Char × List Char :=
  (cs.takeWhile Char.isDigit, cs.dropWhile Char.isDigit)

/-- The optional exponent part of a JS float literal: after the mantissa,
`e`/`E`, an optional sign and at least one digit; anything else is
ignored (JS `parseFloat` stops at the first character it cannot use). -/
def parseExponent (cs : List Char) : Int :=
  match cs with
  | 'e' :: rest | 'E' :: rest =>
    let (sign, rest) : Int × List Char :=
      match rest with
      | '-' :: r => (-1, r)
      | '+' :: r => (1, r)
      | _ => (1, rest)
    let (ds, _) := takeDigits rest
    if ds.isEmpty then 0 else sign * (digitsToNat ds : Int)
  | _ => 0

/-- Host `parseFloat`: skip leading whitespace, read an optional sign, a
decimal mantissa and an optional exponent; NaN when no digit is found.
(`"."` has no digit, so `parseFloat "."` is NaN.) -/
def parseFloat (s : String) : JsNum :=
  let cs := s.data.dropWhile Char.isWhitespace
  let (sign, cs) : ℚ × List Char :=
    match cs with
    | '-' :: rest => (-1, rest)
    | '+' :: rest => (1, rest)
    | _ => (1, cs)
  let (intDs, cs) := takeDigits cs
  let (fracDs, cs) : List Char × List Char :=
    match cs with
    | '.' :: rest => takeDigits rest
    | _ => ([], cs)
  if intDs.isEmpty && fracDs.isEmpty then JsNum.nan
  else
    let mantissa : ℚ :=
      (digitsToNat intDs : ℚ) + (digitsToNat fracDs : ℚ) / (10 ^ fracDs.length)
    JsNum.num (sign * mantissa * (10 : ℚ) ^ parseExponent cs)

/-- The en-US abbreviated month names used by
`toLocaleDateString('en-US', { month: 'short' })`. -/
def monthAbbrev (m : Nat) : String :=
  match m with
  | 1 => "Jan" | 2 => "Feb" | 3 => "Mar" | 4 => "Apr"
  | 5 => "May" | 6 => "Jun" | 7 => "Jul" | 8 => "Aug"
  | 9 => "Sep" | 10 => "Oct" | 11 => "Nov" | 12 => "Dec"
  | _ => ""

/-- Split a character list into the fields separated by characters
satisfying `p` (the semantics of JS `String.split`: `"a-b"` gives two
fields, a leading or trailing separator an empty field). -/
def splitFields (p : Char → Bool) : List Char → List (List Char)
  | [] => [[]]
  | c :: cs =>
    if p c then [] :: splitFields p cs
    else
      match splitFields p cs with
      | f :: rest => (c :: f) :: rest
      | [] => [[c]]

/-- Read a nonempty all-digit character list as a number. -/
def charsToNat? (cs : List Char) : Option Nat :=
  if cs.isEmpty then none
  else if cs.all Char.isDigit then some (digitsToNat cs) else none

/-- Read a `YYYY-MM-DD` date string into (year, month, day); `none` when
the string is not of that shape (JS would yield an Invalid Date). -/
def parseISODate (s : String) : Option (Nat × Nat × Nat) :=
  match splitFields (· = '-') s.data with
  | [y, m, d] =>
    match charsToNat? y, charsToNat? m, charsToNat? d with
    | some yn, some mn, some dn =>
      if 1 ≤ mn && mn ≤ 12 && 1 ≤ dn && dn ≤ 31 then some (yn, mn, dn) else none
    | _, _, _ => none
  | _ => none

/-- Host call `new Date(obs.date).toLocaleDateString('en-US', { month:
'short', year: 'numeric' })` with the host timezone taken as UTC: a
`YYYY-MM-DD` string becomes `"Mon YYYY"`; an unparseable string renders
as JS's `"Invalid Date"`. -/
def formatDate (s : String) : String :=
  match parseISODate s with
  | some (y, m, _) => monthAbbrev m ++ " " ++ toString y
  | none => "Invalid Date"

/-- Gregorian calendar date (year, month, day) of a day count relative to
1970-01-01 (UTC), as computed by JS `Date`; days may be negative. -/
def civilFromDays (z : Int) : Int × Nat × Nat :=
  let z := z + 719468
  let era : Int := z / 146097
  let doe : Nat := (z - era * 146097).toNat
  let yoe : Nat := (doe - doe / 1460 + doe / 36524 - doe / 146096) / 365
  let y : Int := (yoe : Int) + era * 400
  let doy : Nat := doe - (365 * yoe + yoe / 4 - yoe / 100)
  let mp : Nat := (5 * doy + 2) / 153
  let d : Nat := doy - (153 * mp + 2) / 5 + 1
  let m : Nat := if mp < 10 then mp + 3 else mp - 9
  (if m ≤ 2 then y + 1 else y, m, d)

/-- Zero-pad a number to two digits, as in an ISO date. -/
def pad2 (n : Nat) : String :=
  if n < 10 then "0" ++ toString n else toString n

/-- Host call `new Date(t).toISOString().split('T')[0]` for `t` in
milliseconds since the epoch: the UTC calendar date as `YYYY-MM-DD`. -/
def isoDateOf (t : Int) : String :=
  let (y, m, d) := civilFromDays (t / 86400000)
  toString y ++ "-" ++ pad2 m ++ "-" ++ pad2 d

/-! ### The Series Fetcher (`fetchFredSeries`) -/

/-- The test `!API_KEY || API_KEY === 'your_fred_api_key_here'` guarding
`fetchFredSeries`: the credential is `undefined`, empty (both falsy in
JS) or the placeholder. -/
def apiKeyMissing (apiKey : Option String) : Bool :=
  match apiKey with
  | none => true
  | some k => k = "" || k = "your_fred_api_key_here"

/-- The `try` block of `fetchFredSeries`: await the fetch (a rejection
propagates as `networkError`), throw `requestError` on a non-ok status,
await `response.json()` (a malformed body propagates as `parseError`),
and filter out observations whose value is the sentinel `"."`. -/
def tryBody (outcome : FetchOutcome) : Except FredError (List FredObservation) :=
  match outcome with
  | .networkFailure => .error .networkError
  | .response ok status body =>
    if !ok then .error (.requestError status)
    else
      match body with
      | .malformed => .error .parseError
      | .valid data => .ok (data.observations.filter (fun obs => obs.value ≠ "."))

/-- Host `try { .. } catch (e) { handler }` on an already-evaluated body. -/
def tryCatch (x : Except FredError (List FredObservation))
    (handler : FredError → Except FredError (List FredObservation)) :
    Except FredError (List FredObservation) :=
  match x with
  | .ok a => .ok a
  | .error e => handler e

/-- Function `fetchFredSeries` from `fredApi.ts`.  Besides the promise's
outcome (`Except` = may reject), it returns the list of network requests
issued, so that "zero network calls" is a statement about the result.
The `catch` logs and returns `[]`, so every error raised inside the
`try` block is absorbed. -/
def fetchFredSeries (apiKey : Option String) (seriesId : String)
    (startDate : Option String) (endDate : Option String)
    (net : SeriesRequest → FetchOutcome) :
    Except FredError (List FredObservation) × List SeriesRequest :=
  if apiKeyMissing apiKey then
    (.ok [], [])
  else
    let req : SeriesRequest :=
      { seriesId := seriesId, startDate := startDate, endDate := endDate }
    (tryCatch (tryBody (net req)) (fun _e => .ok []), [req])

/-! ### The Series Normalizer and the four pipelines -/

/-- The `data.map((obs) => ({date: ..., value: parseFloat(obs.value)}))`
body shared by the four pipelines: one NormalizedPoint per observation. -/
def normalizeObs (obs : FredObservation) : NormalizedPoint :=
  { date := formatDate obs.date, value := parseFloat obs.value }

/-- Milliseconds in `5 * 365 * 24 * 60 * 60 * 1000`, the trailing window
subtracted from `Date.now()` by each pipeline. -/
def fiveYearsMs : Int := 5 * 365 * 24 * 60 * 60 * 1000

/-- The shared shape of the four pipeline functions: compute the
trailing-5-years window from `now`, fetch the given series, and map each
observation to a NormalizedPoint.  (`fredApi.ts` writes this body out
four times verbatim; the series id is the only difference.) -/
def fetchSeriesPipeline (seriesId : String) (apiKey : Option String)
    (now : Int) (net : SeriesRequest → FetchOutcome) :
    Except FredError (List NormalizedPoint) × List SeriesRequest :=
  let endDate := isoDateOf now
  let startDate := isoDateOf (now - fiveYearsMs)
  match fetchFredSeries apiKey seriesId (some startDate) (some endDate) net with
  | (.ok data, log) => (.ok (data.map normalizeObs), log)
  | (.error e, log) => (.error e, log)

/-- Function `fetchCPIData`: the inflation pipeline (series
`CPALTT01USM657N`). -/
def fetchCPIData (apiKey : Option String) (now : Int)
    (net : SeriesRequest → FetchOutcome) :
    Except FredError (List NormalizedPoint) × List SeriesRequest :=
  fetchSeriesPipeline "CPALTT01USM657N" apiKey now net

/-- Function `fetchUnemploymentData`: the unemployment pipeline (series
`UNRATE`). -/
def fetchUnemploymentData (apiKey : Option String) (now : Int)
    (net : SeriesRequest → FetchOutcome) :
    Except FredError (List NormalizedPoint) × List SeriesRequest :=
  fetchSeriesPipeline "UNRATE" apiKey now net

/-- Function `fetch10YearTreasuryData`: the long-term rate pipeline
(series `GS10`). -/
def fetch10YearTreasuryData (apiKey : Option String) (now : Int)
    (net : SeriesRequest → FetchOutcome) :
    Except FredError (List NormalizedPoint) × List SeriesRequest :=
  fetchSeriesPipeline "GS10" apiKey now net

/-- Function `fetch3MonthTreasuryData`: the short-term rate pipeline
(series `TB3MS`). -/
def fetch3MonthTreasuryData (apiKey : Option String) (now : Int)
    (net : SeriesRequest → FetchOutcome) :
    Except FredError (List NormalizedPoint) × List SeriesRequest :=
  fetchSeriesPipeline "TB3MS" apiKey now net

/-- The request a pipeline for series `seriesId` issues at time `now`:
observation window from five (365-day) years ago to today. -/
def pipelineRequest (seriesId : String) (now : Int) : SeriesRequest :=
  { seriesId := seriesId,
    startDate := some (isoDateOf (now - fiveYearsMs)),
    endDate := some (isoDateOf now) }

/-- A network stub returning, for every request, a well-formed 200
response with the three UNRATE observations of the spec example
(February carries the sentinel value "."). -/
def exampleNet : SeriesRequest → FetchOutcome := fun _ =>
  .response true 200 (.valid
    ⟨[⟨"2020-01-01", "3.6"⟩, ⟨"2020-02-01", "."⟩, ⟨"2020-03-01", "4.4"⟩]⟩)

/-- A network stub that answers every request with HTTP 500. -/
def error500Net : SeriesRequest → FetchOutcome := fun _ =>
  .response false 500 .malformed

/-- A network stub that answers every request with 200 and a body that is
not valid JSON. -/
def malformedNet : SeriesRequest → FetchOutcome := fun _ =>
  .response true 200 .malformed

end FredApi

namespace PageController

open FredApi

/-- The state-setter calls that `loadData` in `app/page.tsx` performs,
in the order the source performs them. -/
inductive Ev where
  | setLoading (b : Bool)
  | setCpiData (pts : List NormalizedPoint)
  | setLaborData (pts : List NormalizedPoint)
  | setInterest10YData (pts : List NormalizedPoint)
  | setInterest3MData (pts : List NormalizedPoint)
deriving Repr, DecidableEq

/-- The settling time of `Promise.all` over promises that all fulfil:
the time the last of them resolves (the event loop runs the awaiting
continuation only once every input promise has resolved). -/
def promiseAllTime (ts : List Nat) : Nat :=
  ts.foldr max 0

/-- The timed trace of state-setter events performed by `loadData` in
`app/page.tsx`, given that pipeline `i` resolves at time `tᵢ` with points
`rᵢ` (the pipelines never reject, so the `catch` branch is dead and the
`finally` runs after the `try` body): `setLoading(true)` at mount
(time 0), then — once `Promise.all` has settled — the four data setters
in source order followed by the `finally`'s `setLoading(false)`. -/
def loadDataTrace (t1 t2 t3 t4 : Nat)
    (r1 r2 r3 r4 : List NormalizedPoint) : List (Nat × Ev) :=
  let T := promiseAllTime [t1, t2, t3, t4]
  [(0, .setLoading true),
   (T, .setCpiData r1),
   (T, .setLaborData r2),
   (T, .setInterest10YData r3),
   (T, .setInterest3MData r4),
   (T, .setLoading false)]

end PageController

namespace FredApi

/-! ### Lemmas about the fetcher and the pipelines -/

theorem fetchFredSeries_success (apiKey : Option String) (sid : String)
    (sd ed : Option String) (net : SeriesRequest → FetchOutcome)
    (s : Nat) (obsL : List FredObservation)
    (hkey : apiKeyMissing apiKey = false)
    (hnet : net ⟨sid, sd, ed⟩ = .response true s (.valid ⟨obsL⟩)) :
    fetchFredSeries apiKey sid sd ed net =
      (.ok (obsL.filter (fun o => o.value ≠ ".")), [⟨sid, sd, ed⟩]) := by
  simp [fetchFredSeries, hkey, hnet, tryCatch, tryBody]

theorem fetchSeriesPipeline_success (sid : String) (apiKey : Option String)
    (now : Int) (net : SeriesRequest → FetchOutcome)
    (s : Nat) (obsL : List FredObservation)
    (hkey : apiKeyMissing apiKey = false)
    (hnet : net (pipelineRequest sid now) = .response true s (.valid ⟨obsL⟩)) :
    fetchSeriesPipeline sid apiKey now net =
      (.ok ((obsL.filter (fun o => o.value ≠ ".")).map normalizeObs),
        [pipelineRequest sid now]) := by
  unfold fetchSeriesPipeline
  simp only []
  rw [fetchFredSeries_success apiKey sid (some (isoDateOf (now - fiveYearsMs)))
    (some (isoDateOf now)) net s obsL hkey hnet]
  rfl

theorem fetchFredSeries_resolves (apiKey : Option String) (sid : String)
    (sd ed : Option String) (net : SeriesRequest → FetchOutcome) :
    ∃ l, (fetchFredSeries apiKey sid sd ed net).1 = .ok l ∧
      ∀ o ∈ l, o.value ≠ "." := by
  unfold fetchFredSeries
  by_cases h : apiKeyMissing apiKey
  · exact ⟨[], by simp [h], by simp⟩
  · simp only [h, Bool.false_eq_true, if_false]
    rcases hn : net ⟨sid, sd, ed⟩ with _ | ⟨ok, status, body⟩
    · exact ⟨[], by simp [tryCatch, tryBody, hn], by simp⟩
    · cases ok
      · exact ⟨[], by simp [tryCatch, tryBody, hn], by simp⟩
      · cases body with
        | malformed => exact ⟨[], by simp [tryCatch, tryBody, hn], by simp⟩
        | valid r =>
          refine ⟨r.observations.filter (fun o => o.value ≠ "."),
            by simp [tryCatch, tryBody, hn], ?_⟩
          intro o ho
          exact of_decide_eq_true (List.mem_filter.mp ho).2

theorem fetchSeriesPipeline_resolves (sid : String) (apiKey : Option String)
    (now : Int) (net : SeriesRequest → FetchOutcome) :
    ∃ pts, (fetchSeriesPipeline sid apiKey now net).1 = .ok pts ∧
      ∀ p ∈ pts, ∃ o : FredObservation, o.value ≠ "." ∧ p = normalizeObs o := by
  obtain ⟨l, hl, hsent⟩ :=
    fetchFredSeries_resolves apiKey sid (some (isoDateOf (now - fiveYearsMs)))
      (some (isoDateOf now)) net
  refine ⟨l.map normalizeObs, ?_, ?_⟩
  · unfold fetchSeriesPipeline
    simp only []
    rcases hf : fetchFredSeries apiKey sid (some (isoDateOf (now - fiveYearsMs)))
        (some (isoDateOf now)) net with ⟨r, log⟩
    rw [hf] at hl
    simp only at hl
    rw [hl]
  · intro p hp
    obtain ⟨o, ho, rfl⟩ := List.mem_map.mp hp
    exact ⟨o, hsent o ho, rfl⟩

theorem fetchFredSeries_ok_shape (apiKey : Option String) (sid : String)
    (sd ed : Option String) (net : SeriesRequest → FetchOutcome)
    (l : List FredObservation)
    (h : (fetchFredSeries apiKey sid sd ed net).1 = .ok l) :
    ∀ o ∈ l, o.value ≠ "." := by
  obtain ⟨l', h', hmem⟩ := fetchFredSeries_resolves apiKey sid sd ed net
  rw [h] at h'
  cases Except.ok.inj h'
  exact hmem

theorem fetchSeriesPipeline_ok_shape (sid : String) (apiKey : Option String)
    (now : Int) (net : SeriesRequest → FetchOutcome)
    (pts : List NormalizedPoint)
    (h : (fetchSeriesPipeline sid apiKey now net).1 = .ok pts) :
    ∀ p ∈ pts, ∃ o : FredObservation, o.value ≠ "." ∧ p = normalizeObs o := by
  obtain ⟨pts', h', hmem⟩ := fetchSeriesPipeline_resolves sid apiKey now net
  rw [h] at h'
  cases Except.ok.inj h'
  exact hmem

theorem fetchFredSeries_absorbs (apiKey : Option String) (sid : String)
    (sd ed : Option String) (net : SeriesRequest → FetchOutcome)
    (e : FredError)
    (hkey : apiKeyMissing apiKey = false)
    (herr : tryBody (net ⟨sid, sd, ed⟩) = .error e) :
    fetchFredSeries apiKey sid sd ed net = (.ok [], [⟨sid, sd, ed⟩]) := by
  simp [fetchFredSeries, hkey, herr, tryCatch]

theorem fetchFredSeries_log (apiKey : Option String) (sid : String)
    (sd ed : Option String) (net : SeriesRequest → FetchOutcome)
    (hkey : apiKeyMissing apiKey = false) :
    (fetchFredSeries apiKey sid sd ed net).2 = [⟨sid, sd, ed⟩] := by
  simp [fetchFredSeries, hkey]

theorem fetchSeriesPipeline_log (sid : String) (apiKey : Option String)
    (now : Int) (net : SeriesRequest → FetchOutcome)
    (hkey : apiKeyMissing apiKey = false) :
    (fetchSeriesPipeline sid apiKey now net).2 = [pipelineRequest sid now] := by
  unfold fetchSeriesPipeline
  simp only []
  have hlog := fetchFredSeries_log apiKey sid
    (some (isoDateOf (now - fiveYearsMs))) (some (isoDateOf now)) net hkey
  rcases hf : fetchFredSeries apiKey sid (some (isoDateOf (now - fiveYearsMs)))
      (some (isoDateOf now)) net with ⟨r, log⟩
  rw [hf] at hlog
  simp only at hlog
  subst hlog
  cases r <;> rfl

theorem length_filter_not {α : Type} (l : List α) (p : α → Prop)
    [DecidablePred p] :
    (l.filter (fun a => decide ¬(p a))).length =
      l.length - l.countP (fun a => decide (p a)) := by
  have h := l.length_eq_countP_add_countP (fun a => decide (p a))
  have he : (fun a => decide ¬(p a)) =
      (fun a => decide ¬(decide (p a) = true)) := by
    funext a; simp
  rw [← List.countP_eq_length_filter, he]
  omega

/-! ### The claims -/

/-- C1: the observation list returned by `fetchFredSeries` never contains
the sentinel value ".", and every point in the output of each of the four
normalizing pipelines derives from a non-sentinel observation. -/
theorem claim_C1_sentinel_never_survives (apiKey : Option String)
    (sid : String) (sd ed : Option String) (now : Int)
    (net : SeriesRequest → FetchOutcome)
    (l : List FredObservation) (p1 p2 p3 p4 : List NormalizedPoint)
    (hl : (fetchFredSeries apiKey sid sd ed net).1 = .ok l)
    (h1 : (fetchCPIData apiKey now net).1 = .ok p1)
    (h2 : (fetchUnemploymentData apiKey now net).1 = .ok p2)
    (h3 : (fetch10YearTreasuryData apiKey now net).1 = .ok p3)
    (h4 : (fetch3MonthTreasuryData apiKey now net).1 = .ok p4) :
    (∀ o ∈ l, o.value ≠ ".") ∧
    (∀ p ∈ p1 ++ p2 ++ p3 ++ p4,
      ∃ o : FredObservation, o.value ≠ "." ∧ p = normalizeObs o) := by
  refine ⟨fetchFredSeries_ok_shape apiKey sid sd ed net l hl, ?_⟩
  intro p hp
  rcases List.mem_append.mp hp with hp' | hp4
  · rcases List.mem_append.mp hp' with hp'' | hp3
    · rcases List.mem_append.mp hp'' with hp1 | hp2
      · exact fetchSeriesPipeline_ok_shape _ apiKey now net p1 h1 p hp1
      · exact fetchSeriesPipeline_ok_shape _ apiKey now net p2 h2 p hp2
    · exact fetchSeriesPipeline_ok_shape _ apiKey now net p3 h3 p hp3
  · exact fetchSeriesPipeline_ok_shape _ apiKey now net p4 h4 p hp4

theorem claim_C1_sentinel_never_survives_witness :
    (∀ o ∈ [(⟨"2020-01-01", "3.6"⟩ : FredObservation),
            ⟨"2020-03-01", "4.4"⟩], o.value ≠ ".") ∧
    (∀ p ∈ ([⟨"Jan 2020", JsNum.num (18/5)⟩,
             (⟨"Mar 2020", JsNum.num (22/5)⟩ : NormalizedPoint)] : List NormalizedPoint) ++
           [⟨"Jan 2020", JsNum.num (18/5)⟩, ⟨"Mar 2020", JsNum.num (22/5)⟩] ++
           [⟨"Jan 2020", JsNum.num (18/5)⟩, ⟨"Mar 2020", JsNum.num (22/5)⟩] ++
           [⟨"Jan 2020", JsNum.num (18/5)⟩, ⟨"Mar 2020", JsNum.num (22/5)⟩],
      ∃ o : FredObservation, o.value ≠ "." ∧ p = normalizeObs o) :=
  claim_C1_sentinel_never_survives (some "test-key") "UNRATE" none none 0
    exampleNet _ _ _ _ _ (by decide) (by decide) (by decide) (by decide) (by decide)

/-- C4: with the credential absent or equal to the placeholder,
`fetchFredSeries` returns the empty list and issues zero network
requests, for every series id, date range and network behavior. -/
theorem claim_C4_no_key_no_call (apiKey : Option String) (sid : String)
    (sd ed : Option String) (net : SeriesRequest → FetchOutcome)
    (h : apiKey = none ∨ apiKey = some "your_fred_api_key_here") :
    fetchFredSeries apiKey sid sd ed net = (.ok [], []) := by
  rcases h with rfl | rfl <;> simp [fetchFredSeries, apiKeyMissing]

theorem claim_C4_no_key_no_call_witness :
    fetchFredSeries none "UNRATE" none none exampleNet = (.ok [], []) :=
  claim_C4_no_key_no_call none "UNRATE" none none exampleNet (Or.inl rfl)

/-- C5: a non-ok HTTP status is raised inside the try block as a
RequestError carrying the status code, absorbed by the catch into the
empty list (no rejection), indistinguishable from the missing-credential
result; the normalizing pipeline likewise yields the empty list. -/
theorem claim_C5_http_error_absorbed (apiKey : Option String) (sid : String)
    (sd ed : Option String) (net : SeriesRequest → FetchOutcome)
    (s : Nat) (body : ResponseBody)
    (hkey : apiKeyMissing apiKey = false)
    (hnet : net ⟨sid, sd, ed⟩ = .response false s body) :
    tryBody (net ⟨sid, sd, ed⟩) = .error (.requestError s) ∧
    fetchFredSeries apiKey sid sd ed net = (.ok [], [⟨sid, sd, ed⟩]) ∧
    (fetchFredSeries apiKey sid sd ed net).1 =
      (fetchFredSeries none sid sd ed net).1 ∧
    (∀ now : Int, net (pipelineRequest sid now) = .response false s body →
      fetchSeriesPipeline sid apiKey now net =
        (.ok [], [pipelineRequest sid now])) := by
  have htry : tryBody (net ⟨sid, sd, ed⟩) = .error (.requestError s) := by
    rw [hnet]; rfl
  refine ⟨htry, fetchFredSeries_absorbs apiKey sid sd ed net _ hkey htry, ?_, ?_⟩
  · rw [fetchFredSeries_absorbs apiKey sid sd ed net _ hkey htry]
    simp [fetchFredSeries, apiKeyMissing]
  · intro now hnow
    have htry' : tryBody (net (pipelineRequest sid now)) =
        .error (.requestError s) := by rw [hnow]; rfl
    unfold fetchSeriesPipeline
    simp only []
    rw [fetchFredSeries_absorbs apiKey sid
      (some (isoDateOf (now - fiveYearsMs))) (some (isoDateOf now)) net _ hkey htry']
    rfl

theorem claim_C5_http_error_absorbed_witness :
    tryBody (error500Net ⟨"UNRATE", none, none⟩) =
      .error (.requestError 500) ∧
    fetchFredSeries (some "test-key") "UNRATE" none none error500Net =
      (.ok [], [⟨"UNRATE", none, none⟩]) ∧
    (fetchFredSeries (some "test-key") "UNRATE" none none error500Net).1 =
      (fetchFredSeries none "UNRATE" none none error500Net).1 ∧
    (∀ now : Int,
      error500Net (pipelineRequest "UNRATE" now) = .response false 500 .malformed →
      fetchSeriesPipeline "UNRATE" (some "test-key") now error500Net =
        (.ok [], [pipelineRequest "UNRATE" now])) :=
  claim_C5_http_error_absorbed (some "test-key") "UNRATE" none none
    error500Net 500 .malformed (by decide) rfl

/-- C6: no fetch outcome makes `fetchFredSeries` or any of the four
pipelines reject: each resolves with some (possibly empty) list. -/
theorem claim_C6_never_rejects (apiKey : Option String) (sid : String)
    (sd ed : Option String) (now : Int)
    (net : SeriesRequest → FetchOutcome) :
    (∃ l, (fetchFredSeries apiKey sid sd ed net).1 = .ok l) ∧
    (∃ p, (fetchCPIData apiKey now net).1 = .ok p) ∧
    (∃ p, (fetchUnemploymentData apiKey now net).1 = .ok p) ∧
    (∃ p, (fetch10YearTreasuryData apiKey now net).1 = .ok p) ∧
    (∃ p, (fetch3MonthTreasuryData apiKey now net).1 = .ok p) := by
  obtain ⟨l, hl, -⟩ := fetchFredSeries_resolves apiKey sid sd ed net
  refine ⟨⟨l, hl⟩, ?_, ?_, ?_, ?_⟩ <;>
  · obtain ⟨p, hp, -⟩ := fetchSeriesPipeline_resolves _ apiKey now net
    exact ⟨p, hp⟩

/-- C7 counterexample: with a malformed 200 response body, the ParseError
raised by `response.json()` does not propagate out of `fetchFredSeries`;
the catch absorbs it and the call resolves with the empty list. -/
theorem claim_C7_counterexample :
    (fetchFredSeries (some "test-key") "UNRATE" none none malformedNet).1 =
      .ok [] := by
  decide

/-- C7 (amended): a malformed JSON body raises a ParseError inside the
try block, and the catch at the fetch boundary absorbs it into the empty
list, exactly like network and HTTP-status failures. -/
theorem claim_C7_parse_error_absorbed (apiKey : Option String) (sid : String)
    (sd ed : Option String) (net : SeriesRequest → FetchOutcome) (s : Nat)
    (hkey : apiKeyMissing apiKey = false)
    (hnet : net ⟨sid, sd, ed⟩ = .response true s .malformed) :
    tryBody (net ⟨sid, sd, ed⟩) = .error .parseError ∧
    fetchFredSeries apiKey sid sd ed net = (.ok [], [⟨sid, sd, ed⟩]) := by
  have htry : tryBody (net ⟨sid, sd, ed⟩) = .error .parseError := by
    rw [hnet]; rfl
  exact ⟨htry, fetchFredSeries_absorbs apiKey sid sd ed net _ hkey htry⟩

theorem claim_C7_parse_error_absorbed_witness :
    tryBody (malformedNet ⟨"UNRATE", none, none⟩) = .error .parseError ∧
    fetchFredSeries (some "test-key") "UNRATE" none none malformedNet =
      (.ok [], [⟨"UNRATE", none, none⟩]) :=
  claim_C7_parse_error_absorbed (some "test-key") "UNRATE" none none
    malformedNet 200 (by decide) rfl

/-- C2: on a successful response of N observations of which M carry the
sentinel ".", the pipeline resolves with exactly N−M points, which are
the in-order image under the normalizer of the in-order (sublist)
selection of the non-sentinel observations. -/
theorem claim_C2_count_and_order (apiKey : Option String) (sid : String)
    (now : Int) (net : SeriesRequest → FetchOutcome) (s : Nat)
    (obsL : List FredObservation)
    (hkey : apiKeyMissing apiKey = false)
    (hnet : net (pipelineRequest sid now) = .response true s (.valid ⟨obsL⟩)) :
    ∃ pts, (fetchSeriesPipeline sid apiKey now net).1 = .ok pts ∧
      pts.length = obsL.length - obsL.countP (fun o => o.value = ".") ∧
      pts = (obsL.filter (fun o => o.value ≠ ".")).map normalizeObs ∧
      List.Sublist (obsL.filter (fun o => o.value ≠ ".")) obsL := by
  refine ⟨_, congrArg Prod.fst
      (fetchSeriesPipeline_success sid apiKey now net s obsL hkey hnet),
    ?_, rfl, List.filter_sublist _⟩
  rw [List.length_map]
  exact length_filter_not obsL (fun o => o.value = ".")

theorem claim_C2_count_and_order_witness :
    ∃ pts, (fetchSeriesPipeline "UNRATE" (some "test-key") 0 exampleNet).1 =
        .ok pts ∧
      pts.length =
        ([(⟨"2020-01-01", "3.6"⟩ : FredObservation), ⟨"2020-02-01", "."⟩,
          ⟨"2020-03-01", "4.4"⟩] : List FredObservation).length -
        ([(⟨"2020-01-01", "3.6"⟩ : FredObservation), ⟨"2020-02-01", "."⟩,
          ⟨"2020-03-01", "4.4"⟩] : List FredObservation).countP
            (fun o => o.value = ".") ∧
      pts = (([(⟨"2020-01-01", "3.6"⟩ : FredObservation), ⟨"2020-02-01", "."⟩,
          ⟨"2020-03-01", "4.4"⟩] : List FredObservation).filter
            (fun o => o.value ≠ ".")).map normalizeObs ∧
      List.Sublist
        (([(⟨"2020-01-01", "3.6"⟩ : FredObservation), ⟨"2020-02-01", "."⟩,
          ⟨"2020-03-01", "4.4"⟩] : List FredObservation).filter
            (fun o => o.value ≠ "."))
        [⟨"2020-01-01", "3.6"⟩, ⟨"2020-02-01", "."⟩, ⟨"2020-03-01", "4.4"⟩] :=
  claim_C2_count_and_order (some "test-key") "UNRATE" 0 exampleNet 200
    [⟨"2020-01-01", "3.6"⟩, ⟨"2020-02-01", "."⟩, ⟨"2020-03-01", "4.4"⟩]
    (by decide) rfl

theorem exampleNormalized :
    (([⟨"2020-01-01", "3.6"⟩, ⟨"2020-02-01", "."⟩, ⟨"2020-03-01", "4.4"⟩] :
        List FredObservation).filter (fun o => o.value ≠ ".")).map
      normalizeObs =
    [⟨"Jan 2020", JsNum.num (18/5)⟩, ⟨"Mar 2020", JsNum.num (22/5)⟩] := by
  decide

/-- C3: the unemployment pipeline maps each fetched non-sentinel
observation 1:1 and in order to ⟨abbreviated en-US month + year of its
date, float parse of its value⟩; on the spec's UNRATE example the output
is exactly [⟨"Jan 2020", 3.6⟩, ⟨"Mar 2020", 4.4⟩]. -/
theorem claim_C3_normalizer_example (apiKey : Option String)
    (now now2 : Int) (net : SeriesRequest → FetchOutcome) (s : Nat)
    (obsL : List FredObservation)
    (hkey : apiKeyMissing apiKey = false)
    (hnet : net (pipelineRequest "UNRATE" now) =
      .response true s (.valid ⟨obsL⟩)) :
    (fetchUnemploymentData apiKey now net).1 =
      .ok ((obsL.filter (fun o => o.value ≠ ".")).map
        (fun o => ⟨formatDate o.date, parseFloat o.value⟩)) ∧
    (fetchUnemploymentData (some "test-key") now2 exampleNet).1 =
      .ok [⟨"Jan 2020", JsNum.num (18/5)⟩, ⟨"Mar 2020", JsNum.num (22/5)⟩] := by
  constructor
  · exact congrArg Prod.fst
      (fetchSeriesPipeline_success "UNRATE" apiKey now net s obsL hkey hnet)
  · exact (congrArg Prod.fst
      (fetchSeriesPipeline_success "UNRATE" (some "test-key") now2 exampleNet
        200 [⟨"2020-01-01", "3.6"⟩, ⟨"2020-02-01", "."⟩, ⟨"2020-03-01", "4.4"⟩]
        (by decide) rfl)).trans (congrArg Except.ok exampleNormalized)

theorem claim_C3_normalizer_example_witness :
    (fetchUnemploymentData (some "test-key") 0 exampleNet).1 =
      .ok ((([(⟨"2020-01-01", "3.6"⟩ : FredObservation), ⟨"2020-02-01", "."⟩,
          ⟨"2020-03-01", "4.4"⟩] : List FredObservation).filter
            (fun o => o.value ≠ ".")).map
        (fun o => ⟨formatDate o.date, parseFloat o.value⟩)) ∧
    (fetchUnemploymentData (some "test-key") 0 exampleNet).1 =
      .ok [⟨"Jan 2020", JsNum.num (18/5)⟩, ⟨"Mar 2020", JsNum.num (22/5)⟩] :=
  claim_C3_normalizer_example (some "test-key") 0 0 exampleNet 200
    [⟨"2020-01-01", "3.6"⟩, ⟨"2020-02-01", "."⟩, ⟨"2020-03-01", "4.4"⟩]
    (by decide) rfl

/-- C9: with a configured credential, each of the four pipelines issues
exactly one request whose end date is the current UTC date, whose start
date is the date 5·365 days earlier, and whose series id is its own;
the four requests differ in nothing else. -/
theorem claim_C9_window_and_ids (apiKey : Option String) (now : Int)
    (net : SeriesRequest → FetchOutcome)
    (hkey : apiKeyMissing apiKey = false) :
    (fetchCPIData apiKey now net).2 =
      [⟨"CPALTT01USM657N", some (isoDateOf (now - fiveYearsMs)),
        some (isoDateOf now)⟩] ∧
    (fetchUnemploymentData apiKey now net).2 =
      [⟨"UNRATE", some (isoDateOf (now - fiveYearsMs)),
        some (isoDateOf now)⟩] ∧
    (fetch10YearTreasuryData apiKey now net).2 =
      [⟨"GS10", some (isoDateOf (now - fiveYearsMs)),
        some (isoDateOf now)⟩] ∧
    (fetch3MonthTreasuryData apiKey now net).2 =
      [⟨"TB3MS", some (isoDateOf (now - fiveYearsMs)),
        some (isoDateOf now)⟩] :=
  ⟨fetchSeriesPipeline_log "CPALTT01USM657N" apiKey now net hkey,
   fetchSeriesPipeline_log "UNRATE" apiKey now net hkey,
   fetchSeriesPipeline_log "GS10" apiKey now net hkey,
   fetchSeriesPipeline_log "TB3MS" apiKey now net hkey⟩

theorem claim_C9_window_and_ids_witness :
    (fetchCPIData (some "test-key") 0 exampleNet).2 =
      [⟨"CPALTT01USM657N", some (isoDateOf ((0 : Int) - fiveYearsMs)),
        some (isoDateOf 0)⟩] ∧
    (fetchUnemploymentData (some "test-key") 0 exampleNet).2 =
      [⟨"UNRATE", some (isoDateOf ((0 : Int) - fiveYearsMs)),
        some (isoDateOf 0)⟩] ∧
    (fetch10YearTreasuryData (some "test-key") 0 exampleNet).2 =
      [⟨"GS10", some (isoDateOf ((0 : Int) - fiveYearsMs)),
        some (isoDateOf 0)⟩] ∧
    (fetch3MonthTreasuryData (some "test-key") 0 exampleNet).2 =
      [⟨"TB3MS", some (isoDateOf ((0 : Int) - fiveYearsMs)),
        some (isoDateOf 0)⟩] :=
  claim_C9_window_and_ids (some "test-key") 0 exampleNet (by decide)

/-- C10: only the exact string "." is filtered out: every other
observation, numeric or not, contributes exactly one NormalizedPoint
carrying `parseFloat` of its value, so a non-numeric value string
reaches the chart as a NaN-valued point. -/
theorem claim_C10_non_numeric_reaches_chart (apiKey : Option String)
    (sid : String) (now : Int) (net : SeriesRequest → FetchOutcome)
    (s : Nat) (obsL : List FredObservation)
    (hkey : apiKeyMissing apiKey = false)
    (hnet : net (pipelineRequest sid now) = .response true s (.valid ⟨obsL⟩)) :
    ∃ pts, (fetchSeriesPipeline sid apiKey now net).1 = .ok pts ∧
      pts.length = obsL.countP (fun o => o.value ≠ ".") ∧
      (∀ o ∈ obsL, o.value ≠ "." →
        (⟨formatDate o.date, parseFloat o.value⟩ : NormalizedPoint) ∈ pts) ∧
      (∀ o ∈ obsL, o.value ≠ "." → parseFloat o.value = JsNum.nan →
        (⟨formatDate o.date, JsNum.nan⟩ : NormalizedPoint) ∈ pts) := by
  refine ⟨_, congrArg Prod.fst
      (fetchSeriesPipeline_success sid apiKey now net s obsL hkey hnet),
    ?_, ?_, ?_⟩
  · rw [List.length_map]
    exact (List.countP_eq_length_filter _ _).symm
  · intro o ho hv
    have hf : o ∈ obsL.filter (fun o => o.value ≠ ".") :=
      List.mem_filter.mpr ⟨ho, by simpa using hv⟩
    exact List.mem_map_of_mem _ hf
  · intro o ho hv hnan
    have hf : o ∈ obsL.filter (fun o => o.value ≠ ".") :=
      List.mem_filter.mpr ⟨ho, by simpa using hv⟩
    have hmem := List.mem_map_of_mem normalizeObs hf
    simpa [normalizeObs, hnan] using hmem

theorem claim_C10_non_numeric_reaches_chart_witness :
    ∃ pts,
      (fetchSeriesPipeline "UNRATE" (some "test-key") 0
        (fun _ => .response true 200 (.valid
          ⟨[⟨"2020-01-01", "abc"⟩, ⟨"2020-02-01", "."⟩]⟩))).1 = .ok pts ∧
      pts.length =
        ([(⟨"2020-01-01", "abc"⟩ : FredObservation),
          ⟨"2020-02-01", "."⟩] : List FredObservation).countP
          (fun o => o.value ≠ ".") ∧
      (∀ o ∈ ([(⟨"2020-01-01", "abc"⟩ : FredObservation),
          ⟨"2020-02-01", "."⟩] : List FredObservation), o.value ≠ "." →
        (⟨formatDate o.date, parseFloat o.value⟩ : NormalizedPoint) ∈ pts) ∧
      (∀ o ∈ ([(⟨"2020-01-01", "abc"⟩ : FredObservation),
          ⟨"2020-02-01", "."⟩] : List FredObservation), o.value ≠ "." →
        parseFloat o.value = JsNum.nan →
        (⟨formatDate o.date, JsNum.nan⟩ : NormalizedPoint) ∈ pts) :=
  claim_C10_non_numeric_reaches_chart (some "test-key") "UNRATE" 0
    (fun _ => .response true 200 (.valid
      ⟨[⟨"2020-01-01", "abc"⟩, ⟨"2020-02-01", "."⟩]⟩)) 200
    [⟨"2020-01-01", "abc"⟩, ⟨"2020-02-01", "."⟩] (by decide) rfl

end FredApi

namespace PageController

/-- C8: when the four pipelines resolve at pairwise distinct, non-zero
times, the controller's event trace stores the four result sequences and
clears the loading flag only at the settling time of the all-complete
barrier, which is not earlier than any pipeline's resolution time (and
is the slowest pipeline's time). -/
theorem claim_C8_loading_clears_after_slowest (t1 t2 t3 t4 : Nat)
    (r1 r2 r3 r4 : List FredApi.NormalizedPoint)
    (_hnz : 0 < t1 ∧ 0 < t2 ∧ 0 < t3 ∧ 0 < t4)
    (_hdist : t1 ≠ t2 ∧ t1 ≠ t3 ∧ t1 ≠ t4 ∧ t2 ≠ t3 ∧ t2 ≠ t4 ∧ t3 ≠ t4) :
    ∃ T, loadDataTrace t1 t2 t3 t4 r1 r2 r3 r4 =
        [(0, .setLoading true),
         (T, .setCpiData r1), (T, .setLaborData r2),
         (T, .setInterest10YData r3), (T, .setInterest3MData r4),
         (T, .setLoading false)] ∧
      t1 ≤ T ∧ t2 ≤ T ∧ t3 ≤ T ∧ t4 ≤ T ∧
      (T = t1 ∨ T = t2 ∨ T = t3 ∨ T = t4) := by
  refine ⟨promiseAllTime [t1, t2, t3, t4], rfl, ?_, ?_, ?_, ?_, ?_⟩ <;>
    simp only [promiseAllTime, List.foldr] <;> omega

theorem claim_C8_loading_clears_after_slowest_witness :
    ∃ T, loadDataTrace 1 2 3 4 [] [] [] [] =
        [(0, .setLoading true),
         (T, .setCpiData []), (T, .setLaborData []),
         (T, .setInterest10YData []), (T, .setInterest3MData []),
         (T, .setLoading false)] ∧
      1 ≤ T ∧ 2 ≤ T ∧ 3 ≤ T ∧ 4 ≤ T ∧
      (T = 1 ∨ T = 2 ∨ T = 3 ∨ T = 4) :=
  claim_C8_loading_clears_after_slowest 1 2 3 4 [] [] [] []
    (by decide) (by decide)

end PageController
